import Mathlib

/-!
Verification development for the movie recommendation system.

The repository ships a React/Next.js frontend (`RecommendationDashboard`,
`MovieCard`) whose logic is embedded directly below, and a collaborative
filtering backend described in detail by the specification (interaction
matrix builder, similarity engine, user/item scorers, hybrid blender,
cold start handler, evaluator).  The backend implementation files are not
part of the snapshot, so the engine is modelled from the specification's
words; every such definition carries a doc comment starting with
`Modelled from the spec:`.
-/

/- ===================== Frontend: data model ===================== -/

/-- Movie record as consumed by the dashboard grids; only `movie_id` is
inspected by the deduplication filter, `title` stands for the remaining
payload fields. -/
structure Movie where
  movie_id : Nat
  title : String
deriving DecidableEq

/- =========== RecommendationDashboard duplicate filter =========== -/

/-- Embedding of the inline filter used by both grids of
`RecommendationDashboard`:
`arr.filter((movie, index, arr) => arr.findIndex(m => m.movie_id === movie.movie_id) === index)`.
JavaScript `findIndex` searches the whole original array, so an element is
kept exactly when its index equals the index of the first element sharing
its `movie_id`. -/
def dedupeByMovieId (l : List Movie) : List Movie :=
  (l.enum.filter
    (fun p => l.findIdx (fun b => b.movie_id == p.2.movie_id) == p.1)).map Prod.snd

/-- Reference formulation: keep the head and recursively drop every later
element carrying the same `movie_id` (first occurrence wins, relative
order preserved). -/
def keepFirstById : List Movie → List Movie
  | [] => []
  | m :: rest =>
      m :: (keepFirstById rest).filter (fun a => !(a.movie_id == m.movie_id))

/- ===================== MovieCard rating logic ===================== -/

/-- Local state of `MovieCard` that the rating controls manipulate:
`userRating` starts at `0` ("no star selected") and is updated by
`handleRateMovie` after a successful submission. -/
structure CardState where
  userRating : Nat
deriving DecidableEq

/-- Embedding of `MovieCard.handleRateMovie`: on a successful `onRate`
call the displayed star rating becomes the submitted rating; when the
call throws, the state is left unchanged. -/
def handleRateMovie (s : CardState) (rating : Nat) (success : Bool) : CardState :=
  if success then ⟨rating⟩ else s

/-- Embedding of the Like button's click handler
`handleRateMovie(userRating > 0 ? userRating : 4)`: the rating submitted
by a Like click. -/
def likeSubmission (userRating : Nat) : Nat :=
  if userRating > 0 then userRating else 4

/-- One Like click: returns the rating sent to the backend together with
the card state after the submission resolves. -/
def likeClick (s : CardState) (success : Bool) : Nat × CardState :=
  (likeSubmission s.userRating, handleRateMovie s (likeSubmission s.userRating) success)

/- ============== Engine data model (modelled from spec) ============== -/

/-- Modelled from the spec: a Rating record `(user_id, movie_id, value)`
from the training snapshot (the backend recommender is not in the
snapshot; §3 of the spec defines the record). -/
structure Rating where
  user_id : Nat
  movie_id : Nat
  value : ℚ
deriving DecidableEq

/-- Modelled from the spec: training hyperparameters — blend weights for
the hybrid blender (§4.5), neighbourhood size K (§3), the item-similarity
minimum co-rater threshold (§4.2) and the Bayesian popularity prior
(§4.6). -/
structure Config where
  userWeight : ℚ
  itemWeight : ℚ
  K : Nat
  minCoraters : Nat
  priorMean : ℚ
  minVotes : ℚ
deriving DecidableEq

/-- Modelled from the spec: validity of hyperparameters — weights are
non-negative and sum to one, and K is positive (§6: `ConfigError` on
invalid weights/K values). -/
def Config.valid (c : Config) : Prop :=
  0 ≤ c.userWeight ∧ 0 ≤ c.itemWeight ∧ c.userWeight + c.itemWeight = 1 ∧ 0 < c.K

instance (c : Config) : Decidable c.valid := by
  unfold Config.valid; infer_instance

/-- Modelled from the spec: the trained model — the immutable rating
snapshot together with the dense remappings of the observed user and item
universes (§3, §4.1); similarity values and scores are computed from it
by the functions below. -/
structure Model where
  users : List Nat
  items : List Nat
  ratings : List Rating
  cfg : Config

/-- Modelled from the spec: the matrix builder's output for a snapshot —
the user and item universes observed in the snapshot (deduplicated) plus
the snapshot itself (§4.1). -/
def mkModel (ratings : List Rating) (cfg : Config) : Model :=
  ⟨(ratings.map (·.user_id)).dedup, (ratings.map (·.movie_id)).dedup, ratings, cfg⟩

/-- Modelled from the spec: training errors (§7): `DataError` for an
empty snapshot, `ConfigError` for invalid hyperparameters. -/
inductive TrainError where
  | DataError : TrainError
  | ConfigError : TrainError
deriving DecidableEq

/-- Modelled from the spec: `train(ratings, config)` (§6) — fails with
`DataError` on empty input, `ConfigError` on invalid weights/K values,
and otherwise builds the interaction matrix and index universe. -/
def train (ratings : List Rating) (cfg : Config) : Except TrainError Model :=
  if ratings = [] then .error .DataError
  else if cfg.valid then .ok (mkModel ratings cfg)
  else .error .ConfigError

/-- Modelled from the spec: one cell of the sparse interaction matrix;
duplicate `(user, movie)` pairs collapse by the keep-last-write policy
(§4.1). -/
def Model.cell (m : Model) (u i : Nat) : Option ℚ :=
  ((m.ratings.filter (fun r => r.user_id == u && r.movie_id == i)).getLast?).map (·.value)

/-- Modelled from the spec: the cell value with `0` for an absent entry. -/
def Model.cellD (m : Model) (u i : Nat) : ℚ :=
  (m.cell u i).getD 0

/-- Modelled from the spec: the items rated by a user in the snapshot. -/
def Model.ratedBy (m : Model) (u : Nat) : List Nat :=
  m.items.filter (fun i => (m.cell u i).isSome)

/-- Modelled from the spec: the users who rated an item in the snapshot. -/
def Model.ratersOf (m : Model) (i : Nat) : List Nat :=
  m.users.filter (fun u => (m.cell u i).isSome)

/-- Modelled from the spec: items co-rated by two users (§4.2). -/
def Model.commonItems (m : Model) (u v : Nat) : List Nat :=
  m.items.filter (fun i => (m.cell u i).isSome && (m.cell v i).isSome)

/-- Modelled from the spec: users who rated both of two items (§4.2). -/
def Model.coRaters (m : Model) (i j : Nat) : List Nat :=
  m.users.filter (fun u => (m.cell u i).isSome && (m.cell u j).isSome)

/-- Modelled from the spec: a user's mean rating (0 when the user rated
nothing), used for mean-centering (§4.3). -/
def Model.userMean (m : Model) (u : Nat) : ℚ :=
  let l := (m.ratedBy u).map (m.cellD u)
  if l.length = 0 then 0 else l.sum / (l.length : ℚ)

/-- Modelled from the spec: an item's mean rating (0 when unrated), used
for mean-centering in the item-based scorer (§4.4). -/
def Model.itemMean (m : Model) (i : Nat) : ℚ :=
  let l := (m.ratersOf i).map (fun u => m.cellD u i)
  if l.length = 0 then 0 else l.sum / (l.length : ℚ)

/- ============== Similarity engine (modelled from spec) ============== -/

/-- Modelled from the spec: user-user cosine similarity restricted to
co-rated items (§4.2); the diagonal is `1`, a pair with zero co-rated
items is defined to be `0`, and a zero-norm vector yields `0` to avoid
division by zero. -/
noncomputable def Model.userSim (m : Model) (u v : Nat) : ℝ :=
  if u = v then 1
  else
    let common := m.commonItems u v
    if common = [] then 0
    else
      let num : ℚ := (common.map (fun i => m.cellD u i * m.cellD v i)).sum
      let du : ℚ := (common.map (fun i => (m.cellD u i) ^ 2)).sum
      let dv : ℚ := (common.map (fun i => (m.cellD v i) ^ 2)).sum
      if du = 0 ∨ dv = 0 then 0
      else (num : ℝ) / (Real.sqrt (du : ℝ) * Real.sqrt (dv : ℝ))

/-- Modelled from the spec: item-item Pearson correlation over users who
rated both items (§4.2); the diagonal is `1`, fewer co-raters than the
configured threshold forces `0`, and a zero-variance vector yields `0`. -/
noncomputable def Model.itemSim (m : Model) (i j : Nat) : ℝ :=
  if i = j then 1
  else
    let co := m.coRaters i j
    if co.length < m.cfg.minCoraters then 0
    else
      let n : ℚ := (co.length : ℚ)
      let mi : ℚ := (co.map (fun u => m.cellD u i)).sum / n
      let mj : ℚ := (co.map (fun u => m.cellD u j)).sum / n
      let num : ℚ := (co.map (fun u => (m.cellD u i - mi) * (m.cellD u j - mj))).sum
      let vi : ℚ := (co.map (fun u => (m.cellD u i - mi) ^ 2)).sum
      let vj : ℚ := (co.map (fun u => (m.cellD u j - mj) ^ 2)).sum
      if vi = 0 ∨ vj = 0 then 0
      else (num : ℝ) / (Real.sqrt (vi : ℝ) * Real.sqrt (vj : ℝ))

/- ===================== Scorers and blender ===================== -/

/-- Modelled from the spec: the prediction source tag (§3). -/
inductive Source where
  | user_based : Source
  | item_based : Source
  | hybrid : Source
  | popularity_fallback : Source
deriving DecidableEq

/-- Modelled from the spec: a Prediction record (§3) — user, movie, the
predicted score, the source that produced it and the support count. -/
structure Prediction where
  user_id : Nat
  movie_id : Nat
  score : ℝ
  source : Source
  support : Nat

/-- Modelled from the spec: the recommendation type dispatched at the
service boundary (§9). -/
inductive RecType where
  | user : RecType
  | item : RecType
  | hybrid : RecType
deriving DecidableEq

open Classical in
/-- Modelled from the spec: the descending neighbour order (§3) — higher
similarity first, ties broken by lower index for determinism. -/
noncomputable def simDescLe (s : Nat → ℝ) (a b : Nat) : Bool :=
  if s b < s a then true
  else if s a = s b then a ≤ b
  else false

/-- Modelled from the spec: the top-K neighbours of user `u` that have
rated candidate item `c` (§4.3) — raters of `c` other than `u`, sorted
descending by similarity with ties to the lower index, truncated to K. -/
noncomputable def Model.topNeighbors (m : Model) (u c : Nat) : List Nat :=
  (((m.ratersOf c).filter (fun v => !(v == u))).mergeSort (simDescLe (m.userSim u))).take m.cfg.K

open Classical in
/-- Modelled from the spec: the user-based scorer (§4.3) — the weighted
mean-centered average over top-K neighbours that rated the candidate;
reports no signal (`none`) when the total absolute similarity weight is
zero (in particular when no neighbour rated the item). -/
noncomputable def Model.userScore (m : Model) (u c : Nat) : Option (ℝ × Nat) :=
  let ns := m.topNeighbors u c
  let den : ℝ := (ns.map (fun v => |m.userSim u v|)).sum
  if den = 0 then none
  else
    let num : ℝ :=
      (ns.map (fun v => m.userSim u v * (((m.cellD v c : ℚ) : ℝ) - ((m.userMean v : ℚ) : ℝ)))).sum
    some (((m.userMean u : ℚ) : ℝ) + num / den, ns.length)

/-- Modelled from the spec: the top-K items rated by `u` most similar to
candidate `c` (§4.4). -/
noncomputable def Model.topRatedSimilar (m : Model) (u c : Nat) : List Nat :=
  (((m.ratedBy u).filter (fun i => !(i == c))).mergeSort (simDescLe (m.itemSim c))).take m.cfg.K

open Classical in
/-- Modelled from the spec: the item-based scorer (§4.4) — symmetric to
the user-based scorer but anchored on item-item similarity, with the same
mean-centering and no-signal contract. -/
noncomputable def Model.itemScore (m : Model) (u c : Nat) : Option (ℝ × Nat) :=
  let is := m.topRatedSimilar u c
  let den : ℝ := (is.map (fun i => |m.itemSim c i|)).sum
  if den = 0 then none
  else
    let num : ℝ :=
      (is.map (fun i => m.itemSim c i * (((m.cellD u i : ℚ) : ℝ) - ((m.itemMean i : ℚ) : ℝ)))).sum
    some (((m.itemMean c : ℚ) : ℝ) + num / den, is.length)

/-- Modelled from the spec: the Bayesian-averaged global popularity score
of an item (§4.6) — the rating count pulls the item mean toward the
configured prior mean. -/
def Model.popScore (m : Model) (i : Nat) : ℚ :=
  let c : ℚ := ((m.ratersOf i).length : ℚ)
  (c * m.itemMean i + m.cfg.minVotes * m.cfg.priorMean) / (c + m.cfg.minVotes)

/-- Modelled from the spec: the popularity-fallback prediction for one
candidate item (§4.6). -/
noncomputable def Model.popPrediction (m : Model) (u c : Nat) : Prediction :=
  ⟨u, c, ((m.popScore c : ℚ) : ℝ), .popularity_fallback, 0⟩

open Classical in
/-- Modelled from the spec: the blender's deterministic ranking order
(§4.5) — descending blended score, ties broken by higher support, then by
lower item id. -/
noncomputable def predLe (p q : Prediction) : Bool :=
  if q.score < p.score then true
  else if p.score = q.score then
    (if q.support < p.support then true
     else if p.support = q.support then p.movie_id ≤ q.movie_id
     else false)
  else false

/-- Modelled from the spec: one blended prediction for a candidate item
(§4.5) — dispatch on the recommendation type; a source reporting no
signal hands full weight to the other, and when every source reports no
signal the candidate defers to the popularity fallback (§4.6). -/
noncomputable def Model.blendOne (m : Model) (u : Nat) (t : RecType) (c : Nat) : Prediction :=
  match t with
  | .user =>
      match m.userScore u c with
      | some su => ⟨u, c, su.1, .user_based, su.2⟩
      | none => m.popPrediction u c
  | .item =>
      match m.itemScore u c with
      | some si => ⟨u, c, si.1, .item_based, si.2⟩
      | none => m.popPrediction u c
  | .hybrid =>
      match m.userScore u c, m.itemScore u c with
      | some su, some si =>
          ⟨u, c, m.cfg.userWeight * su.1 + m.cfg.itemWeight * si.1, .hybrid, su.2 + si.2⟩
      | some su, none => ⟨u, c, su.1, .user_based, su.2⟩
      | none, some si => ⟨u, c, si.1, .item_based, si.2⟩
      | none, none => m.popPrediction u c

/-- Modelled from the spec: the candidate items for a known user — the
items the user has not rated (§4.3). -/
def Model.unratedItems (m : Model) (u : Nat) : List Nat :=
  m.items.filter (fun i => !(m.cell u i).isSome)

/-- Modelled from the spec: the popularity-ranked fallback list over a
candidate list (§4.6), sorted by the blender's deterministic order and
truncated to the requested size. -/
noncomputable def Model.popRank (m : Model) (u : Nat) (cands : List Nat) (n : Nat) :
    List Prediction :=
  ((cands.map (m.popPrediction u)).mergeSort predLe).take n

/-- Modelled from the spec: `recommend(model, user_id, top_n, type)` (§6)
— a user absent from the training snapshot falls back to the global
popularity ranking over the whole item universe (§4.6); a known user gets
the blended predictions over their unrated items, sorted by the blender's
deterministic order and truncated to `top_n` (§4.5). -/
noncomputable def Model.recommend (m : Model) (u : Nat) (n : Nat) (t : RecType) :
    List Prediction :=
  if u ∈ m.users then
    (((m.unratedItems u).map (m.blendOne u t)).mergeSort predLe).take n
  else
    m.popRank u m.items n

/- ===================== Evaluator (modelled from spec) ===================== -/

/-- Modelled from the spec: the per-pair errors `predicted − actual` over
the test ratings that received a valid prediction (§4.7); each pair is
`(predicted, actual)`. -/
def predErrors (pairs : List (ℚ × ℚ)) : List ℚ :=
  pairs.map (fun p => p.1 - p.2)

/-- Modelled from the spec: the mean squared error over evaluated pairs
(§4.7); `RMSE` is its square root. -/
def mse (pairs : List (ℚ × ℚ)) : ℚ :=
  ((predErrors pairs).map (fun e => e ^ 2)).sum / (pairs.length : ℚ)

/-- Modelled from the spec: `MAE = mean(|predicted − actual|)` (§4.7). -/
def mae (pairs : List (ℚ × ℚ)) : ℚ :=
  ((predErrors pairs).map (fun e => |e|)).sum / (pairs.length : ℚ)

/-- Modelled from the spec: the deterministic held-out test membership
for a rating, a pure function of the seed, fraction and the rating's
identity (§4.7: split deterministic given a fixed seed, configurable
fraction). -/
def inTestSplit (seed : Nat) (frac : ℚ) (r : Rating) : Bool :=
  (((seed + 31 * r.user_id + r.movie_id) % 100 : ℚ) < frac * 100)

/-- Modelled from the spec: the evaluator's train/test split (§4.7) — a
partition of the rating set driven by the deterministic membership
predicate; first component train, second component test. -/
def splitRatings (seed : Nat) (frac : ℚ) (l : List Rating) : List Rating × List Rating :=
  (l.filter (fun r => !(inTestSplit seed frac r)), l.filter (inTestSplit seed frac))

/- ===================== Demo inputs for witnesses ===================== -/

/-- Concrete configuration used to instantiate theorems: an even 0.5/0.5
hybrid split, K = 5, co-rater threshold 2, prior mean 3 with one
minimum vote. -/
def demoCfg : Config :=
  ⟨1/2, 1/2, 5, 2, 3, 1⟩

/-- Concrete rating snapshot used to instantiate theorems (the spec's §8
concrete scenario). -/
def demoRatings : List Rating :=
  [⟨1, 1, 5⟩, ⟨1, 2, 3⟩, ⟨2, 1, 5⟩, ⟨2, 2, 3⟩, ⟨3, 1, 1⟩]

/-- Helper: the demo configuration is valid. -/
theorem demoCfg_valid : demoCfg.valid := by
  refine ⟨by norm_num [demoCfg], by norm_num [demoCfg], by norm_num [demoCfg], by norm_num [demoCfg]⟩

/-- Helper: training succeeds on a non-empty snapshot with a valid
configuration and returns the built model. -/
theorem train_ok_of (ratings : List Rating) (cfg : Config)
    (h1 : ratings ≠ []) (h2 : cfg.valid) :
    train ratings cfg = .ok (mkModel ratings cfg) := by
  simp [train, h1, h2]

/-- Helper: training on the demo snapshot yields the demo model. -/
theorem train_demo : train demoRatings demoCfg = .ok (mkModel demoRatings demoCfg) :=
  train_ok_of demoRatings demoCfg (by decide) demoCfg_valid

/- ===================== C2: train error contract ===================== -/

/-- C2: `train` raises `DataError` whenever the input rating sequence is
empty, and for every non-empty rating sequence with valid config it
returns a trained model without raising `DataError`. -/
theorem train_empty_iff_dataError (ratings : List Rating) (cfg : Config) :
    (ratings = [] → train ratings cfg = .error .DataError) ∧
    (ratings ≠ [] → cfg.valid → train ratings cfg = .ok (mkModel ratings cfg)) := by
  constructor
  · intro h
    simp [train, h]
  · intro h hv
    simp [train, h, hv]

/-- Witness for C2 at the demo snapshot and configuration. -/
theorem train_empty_iff_dataError_witness :
    train [] demoCfg = .error .DataError ∧
    train demoRatings demoCfg = .ok (mkModel demoRatings demoCfg) :=
  ⟨(train_empty_iff_dataError [] demoCfg).1 rfl,
   (train_empty_iff_dataError demoRatings demoCfg).2 (by decide) demoCfg_valid⟩

/- ===================== C6: training determinism ===================== -/

/-- C6: training is deterministic — identical snapshots and configs give
the same `train` outcome, and the resulting models have identical
user-user and item-item similarity matrices and identical recommendation
rankings for every user, size and type. -/
theorem train_deterministic (r1 r2 : List Rating) (c1 c2 : Config)
    (hr : r1 = r2) (hc : c1 = c2) :
    train r1 c1 = train r2 c2 ∧
    ∀ m1 m2, train r1 c1 = .ok m1 → train r2 c2 = .ok m2 →
      (∀ a b, m1.userSim a b = m2.userSim a b) ∧
      (∀ i j, m1.itemSim i j = m2.itemSim i j) ∧
      (∀ u n t, m1.recommend u n t = m2.recommend u n t) := by
  subst hr
  subst hc
  refine ⟨rfl, ?_⟩
  intro m1 m2 h1 h2
  rw [h1] at h2
  injection h2 with h
  subst h
  exact ⟨fun _ _ => rfl, fun _ _ => rfl, fun _ _ _ => rfl⟩

/-- Witness for C6 at the demo snapshot. -/
theorem train_deterministic_witness :
    train demoRatings demoCfg = train demoRatings demoCfg ∧
    (mkModel demoRatings demoCfg).userSim 1 2 = (mkModel demoRatings demoCfg).userSim 1 2 :=
  ⟨(train_deterministic demoRatings demoRatings demoCfg demoCfg rfl rfl).1,
   (((train_deterministic demoRatings demoRatings demoCfg demoCfg rfl rfl).2
      (mkModel demoRatings demoCfg) (mkModel demoRatings demoCfg)
      train_demo train_demo).1 1 2)⟩

/- ===================== C8: split invariant ===================== -/

/-- C8: for every seed, fraction and input rating list, the evaluator's
train/test split is disjoint, loses no rating and duplicates none (the
two halves concatenate to a permutation of the input), and a rating lies
in the input exactly when it lies in one of the halves. -/
theorem splitRatings_partition (seed : Nat) (frac : ℚ) (l : List Rating) :
    (∀ r ∈ (splitRatings seed frac l).1, r ∉ (splitRatings seed frac l).2) ∧
    ((splitRatings seed frac l).1 ++ (splitRatings seed frac l).2).Perm l ∧
    (∀ r, r ∈ l ↔
      r ∈ (splitRatings seed frac l).1 ∨ r ∈ (splitRatings seed frac l).2) := by
  refine ⟨?_, ?_, ?_⟩
  · intro r hr hr2
    simp only [splitRatings, List.mem_filter, Bool.not_eq_true'] at hr hr2
    rw [hr.2] at hr2
    exact Bool.false_ne_true hr2.2
  · exact List.perm_append_comm.trans (List.filter_append_perm (inTestSplit seed frac) l)
  · intro r
    constructor
    · intro hr
      by_cases hp : inTestSplit seed frac r
      · exact Or.inr (List.mem_filter.2 ⟨hr, hp⟩)
      · exact Or.inl (List.mem_filter.2 ⟨hr, by simp [hp]⟩)
    · intro hr
      rcases hr with hr | hr
      · exact (List.mem_filter.1 hr).1
      · exact (List.mem_filter.1 hr).1

/- ===================== C10: MovieCard Like button ===================== -/

/-- C10: clicking Like submits exactly 4 when no star rating is selected
(`userRating = 0`), otherwise it submits the selected star rating, and on
a successful submission the displayed star rating becomes the submitted
value. -/
theorem likeClick_spec (s : CardState) (b : Bool) :
    (s.userRating = 0 → (likeClick s b).1 = 4) ∧
    (0 < s.userRating → (likeClick s b).1 = s.userRating) ∧
    (likeClick s true).2.userRating = (likeClick s true).1 := by
  refine ⟨?_, ?_, ?_⟩
  · intro h
    simp [likeClick, likeSubmission, h]
  · intro h
    simp [likeClick, likeSubmission, h]
  · simp [likeClick, handleRateMovie]

/-- Witness for C10: at `userRating = 0` the Like click submits 4, at
`userRating = 3` it submits 3, and in both cases the stored rating equals
the submitted one. -/
theorem likeClick_spec_witness :
    (likeClick ⟨0⟩ true).1 = 4 ∧ (likeClick ⟨3⟩ true).1 = 3 ∧
    (likeClick ⟨0⟩ true).2.userRating = (likeClick ⟨0⟩ true).1 :=
  ⟨(likeClick_spec ⟨0⟩ true).1 rfl,
   (likeClick_spec ⟨3⟩ true).2.1 (by decide),
   (likeClick_spec ⟨0⟩ true).2.2⟩

/- ===================== Shape of ranked outputs ===================== -/

/-- Helper: the blended prediction for candidate `c` carries `c` as its
movie id, for every recommendation type. -/
theorem blendOne_movie_id (m : Model) (u : Nat) (t : RecType) (c : Nat) :
    (m.blendOne u t c).movie_id = c := by
  cases t <;>
    cases h1 : m.userScore u c <;>
    cases h2 : m.itemScore u c <;>
      simp [Model.blendOne, Model.popPrediction, h1, h2]

/-- Helper: sorting candidate-indexed predictions and truncating yields a
list of at most `n` predictions, with pairwise distinct movie ids whenever
the candidates are distinct, all drawn from the candidate list. -/
theorem ranked_take_props (cands : List Nat) (f : Nat → Prediction) (n : Nat)
    (hf : ∀ c ∈ cands, (f c).movie_id = c) :
    (((cands.map f).mergeSort predLe).take n).length ≤ n ∧
    (cands.Nodup → ((((cands.map f).mergeSort predLe).take n).map (·.movie_id)).Nodup) ∧
    (∀ p ∈ ((cands.map f).mergeSort predLe).take n, p.movie_id ∈ cands) := by
  have hperm : ((cands.map f).mergeSort predLe).Perm (cands.map f) :=
    List.mergeSort_perm (cands.map f) predLe
  have hid : (cands.map f).map (·.movie_id) = cands := by
    rw [List.map_map]
    exact (List.map_congr_left (fun c hc => hf c hc)).trans (List.map_id cands)
  refine ⟨List.length_take_le n _, ?_, ?_⟩
  · intro hnd
    have h1 : (((cands.map f).mergeSort predLe).map (·.movie_id)).Perm
        ((cands.map f).map (·.movie_id)) := hperm.map _
    have h2 : (((cands.map f).mergeSort predLe).map (·.movie_id)).Nodup := by
      rw [h1.nodup_iff, hid]
      exact hnd
    exact ((List.take_sublist n _).map _).nodup h2
  · intro p hp
    have hmem : p ∈ (cands.map f) :=
      List.mem_mergeSort.1 ((List.take_sublist n _).mem hp)
    rcases List.mem_map.1 hmem with ⟨c, hc, hfc⟩
    rw [← hfc, hf c hc]
    exact hc

/-- Helper: inverting a successful training run. -/
theorem train_ok_inv (ratings : List Rating) (cfg : Config) (m : Model)
    (h : train ratings cfg = .ok m) : m = mkModel ratings cfg := by
  unfold train at h
  split at h
  · exact absurd h (by simp)
  · split at h
    · injection h with h'
      exact h'.symm
    · exact absurd h (by simp)

/-- Helper: a trained model's item universe has no duplicates. -/
theorem trained_items_nodup (ratings : List Rating) (cfg : Config) (m : Model)
    (h : train ratings cfg = .ok m) : m.items.Nodup := by
  rw [train_ok_inv ratings cfg m h]
  exact List.nodup_dedup _

/- ===================== C1: recommend output shape ===================== -/

/-- C1: for every trained model, every user, every requested size `n` and
every recommendation type, `recommend` returns at most `n` predictions,
no two returned predictions share a movie id, and every returned movie id
belongs to the item universe observed in the training snapshot. -/
theorem recommend_output_shape (ratings : List Rating) (cfg : Config) (m : Model)
    (h : train ratings cfg = .ok m) (u n : Nat) (t : RecType) :
    (m.recommend u n t).length ≤ n ∧
    ((m.recommend u n t).map (·.movie_id)).Nodup ∧
    (∀ p ∈ m.recommend u n t, p.movie_id ∈ m.items) := by
  have hitems : m.items.Nodup := trained_items_nodup ratings cfg m h
  unfold Model.recommend Model.popRank
  split
  · have hprops := ranked_take_props (m.unratedItems u) (m.blendOne u t) n
      (fun c _ => blendOne_movie_id m u t c)
    have hsub : ∀ c ∈ m.unratedItems u, c ∈ m.items := by
      intro c hc
      exact (List.mem_filter.1 hc).1
    exact ⟨hprops.1, hprops.2.1 (hitems.filter _), fun p hp => hsub _ (hprops.2.2 p hp)⟩
  · have hprops := ranked_take_props m.items (m.popPrediction u) n
      (fun c _ => rfl)
    exact ⟨hprops.1, hprops.2.1 hitems, hprops.2.2⟩

/-- Witness for C1 at the demo model, user 3, size 2, hybrid type. -/
theorem recommend_output_shape_witness :
    ((mkModel demoRatings demoCfg).recommend 3 2 .hybrid).length ≤ 2 ∧
    (((mkModel demoRatings demoCfg).recommend 3 2 .hybrid).map (·.movie_id)).Nodup ∧
    (∀ p ∈ (mkModel demoRatings demoCfg).recommend 3 2 .hybrid,
      p.movie_id ∈ (mkModel demoRatings demoCfg).items) :=
  recommend_output_shape demoRatings demoCfg (mkModel demoRatings demoCfg)
    train_demo 3 2 .hybrid

/- ===================== C3: unknown-user fallback ===================== -/

/-- C3: for a trained model over a non-empty item universe and a user
absent from the training snapshot, `recommend` raises nothing — it is the
global-popularity ranking over the whole item universe — and it returns
exactly `min(top_n, item_universe_size)` predictions, in particular a
non-empty list whenever `top_n > 0`. -/
theorem recommend_unknown_user (ratings : List Rating) (cfg : Config) (m : Model)
    (h : train ratings cfg = .ok m) (u : Nat) (hu : u ∉ m.users)
    (hn : 0 < m.items.length) (n : Nat) (t : RecType) :
    m.recommend u n t = m.popRank u m.items n ∧
    (m.recommend u n t).length = min n m.items.length ∧
    (0 < n → m.recommend u n t ≠ []) := by
  have heq : m.recommend u n t = m.popRank u m.items n := by
    unfold Model.recommend
    simp [hu]
  have hlen : (m.recommend u n t).length = min n m.items.length := by
    rw [heq]
    unfold Model.popRank
    rw [List.length_take, List.length_mergeSort, List.length_map]
  refine ⟨heq, hlen, ?_⟩
  intro hpos hnil
  have : (m.recommend u n t).length = 0 := by
    rw [hnil]
    rfl
  rw [hlen] at this
  omega

/-- Witness for C3 at the demo model and the unknown user 99. -/
theorem recommend_unknown_user_witness :
    (mkModel demoRatings demoCfg).recommend 99 2 .hybrid
      = (mkModel demoRatings demoCfg).popRank 99 (mkModel demoRatings demoCfg).items 2 ∧
    ((mkModel demoRatings demoCfg).recommend 99 2 .hybrid).length
      = min 2 (mkModel demoRatings demoCfg).items.length ∧
    (0 < 2 → (mkModel demoRatings demoCfg).recommend 99 2 .hybrid ≠ []) :=
  recommend_unknown_user demoRatings demoCfg (mkModel demoRatings demoCfg)
    train_demo 99 (by decide) (by decide) 2 .hybrid

/- ===================== C4: similarity symmetry ===================== -/

/-- Helper: the co-rated item list is symmetric in its two users. -/
theorem commonItems_comm (m : Model) (u v : Nat) :
    m.commonItems u v = m.commonItems v u := by
  unfold Model.commonItems
  exact List.filter_congr (fun i _ => by rw [Bool.and_comm])

/-- Helper: the co-rater list is symmetric in its two items. -/
theorem coRaters_comm (m : Model) (i j : Nat) :
    m.coRaters i j = m.coRaters j i := by
  unfold Model.coRaters
  exact List.filter_congr (fun u _ => by rw [Bool.and_comm])

/-- Helper: the guarded normalized quotient shared by both similarity
formulas is symmetric in the two norm factors. -/
theorem simQuotient_symm (num x y : ℚ) :
    (if x = 0 ∨ y = 0 then (0 : ℝ)
     else ((num : ℚ) : ℝ) / (Real.sqrt ((x : ℚ) : ℝ) * Real.sqrt ((y : ℚ) : ℝ))) =
    (if y = 0 ∨ x = 0 then (0 : ℝ)
     else ((num : ℚ) : ℝ) / (Real.sqrt ((y : ℚ) : ℝ) * Real.sqrt ((x : ℚ) : ℝ))) := by
  by_cases hx : x = 0
  · simp [hx]
  · by_cases hy : y = 0
    · simp [hy]
    · rw [if_neg (by tauto), if_neg (by tauto), mul_comm]

/-- Helper: user-user cosine similarity is symmetric. -/
theorem userSim_comm (m : Model) (u v : Nat) : m.userSim u v = m.userSim v u := by
  by_cases huv : u = v
  · rw [huv]
  · simp only [Model.userSim, if_neg huv, if_neg (Ne.symm huv)]
    rw [commonItems_comm m v u]
    by_cases hce : m.commonItems u v = []
    · simp [hce]
    · rw [if_neg hce, if_neg hce]
      have hnum : (List.map (fun i => m.cellD v i * m.cellD u i) (m.commonItems u v)).sum
          = (List.map (fun i => m.cellD u i * m.cellD v i) (m.commonItems u v)).sum :=
        congrArg List.sum (List.map_congr_left (fun i _ => mul_comm _ _))
      rw [hnum]
      exact simQuotient_symm _ _ _

/-- Helper: item-item Pearson similarity is symmetric. -/
theorem itemSim_comm (m : Model) (i j : Nat) : m.itemSim i j = m.itemSim j i := by
  by_cases hij : i = j
  · rw [hij]
  · simp only [Model.itemSim, if_neg hij, if_neg (Ne.symm hij)]
    rw [coRaters_comm m j i]
    by_cases hcl : (m.coRaters i j).length < m.cfg.minCoraters
    · rw [if_pos hcl, if_pos hcl]
    · rw [if_neg hcl, if_neg hcl]
      have hnum : (List.map (fun u =>
            (m.cellD u j - (List.map (fun u => m.cellD u j) (m.coRaters i j)).sum
              / ((m.coRaters i j).length : ℚ)) *
            (m.cellD u i - (List.map (fun u => m.cellD u i) (m.coRaters i j)).sum
              / ((m.coRaters i j).length : ℚ))) (m.coRaters i j)).sum
          = (List.map (fun u =>
            (m.cellD u i - (List.map (fun u => m.cellD u i) (m.coRaters i j)).sum
              / ((m.coRaters i j).length : ℚ)) *
            (m.cellD u j - (List.map (fun u => m.cellD u j) (m.coRaters i j)).sum
              / ((m.coRaters i j).length : ℚ))) (m.coRaters i j)).sum :=
        congrArg List.sum (List.map_congr_left (fun u _ => mul_comm _ _))
      rw [hnum]
      exact simQuotient_symm _ _ _

/-- C4: both similarity matrices are symmetric — for every model and
every pair of indices, user-user cosine similarity and item-item Pearson
similarity are invariant under swapping the two indices. -/
theorem similarity_symmetric (m : Model) (a b : Nat) :
    m.userSim a b = m.userSim b a ∧ m.itemSim a b = m.itemSim b a :=
  ⟨userSim_comm m a b, itemSim_comm m a b⟩

/- ===================== C7: RMSE versus MAE ===================== -/

/-- Helper: summed AM-GM bound — twice the absolute-error sum scaled by a
single absolute value is bounded by the squared-error sum plus the count
times the square. -/
theorem sum_two_abs_mul_le (t : List ℚ) (a : ℚ) :
    2 * (t.map (fun e => |e|)).sum * |a|
      ≤ (t.map (fun e => e ^ 2)).sum + (t.length : ℚ) * a ^ 2 := by
  induction t with
  | nil => simp [sq_nonneg a]
  | cons x t ih =>
    simp only [List.map_cons, List.sum_cons, List.length_cons]
    have h1 : 2 * |x| * |a| ≤ x ^ 2 + a ^ 2 := by
      nlinarith [sq_nonneg (|x| - |a|), sq_abs x, sq_abs a]
    push_cast
    nlinarith [ih]

/-- Helper: Cauchy–Schwarz for lists of rationals — the square of the
absolute-value sum is at most the length times the sum of squares. -/
theorem sq_sum_abs_le (l : List ℚ) :
    ((l.map (fun e => |e|)).sum) ^ 2 ≤ (l.length : ℚ) * (l.map (fun e => e ^ 2)).sum := by
  induction l with
  | nil => simp
  | cons x t ih =>
    simp only [List.map_cons, List.sum_cons, List.length_cons]
    have h2 := sum_two_abs_mul_le t x
    have habs : (0 : ℚ) ≤ (t.map (fun e => |e|)).sum :=
      List.sum_nonneg (by
        intro q hq
        rcases List.mem_map.1 hq with ⟨e, _, he⟩
        rw [← he]
        exact abs_nonneg e)
    push_cast
    nlinarith [sq_abs x, ih]

/-- C7: for every non-empty evaluated test set, the evaluator's MAE and
MSE are non-negative, the RMSE (square root of the MSE) is non-negative,
and RMSE ≥ MAE. -/
theorem rmse_ge_mae (pairs : List (ℚ × ℚ)) (h : pairs ≠ []) :
    0 ≤ mae pairs ∧ 0 ≤ mse pairs ∧ (0 : ℝ) ≤ Real.sqrt ((mse pairs : ℚ) : ℝ) ∧
    ((mae pairs : ℚ) : ℝ) ≤ Real.sqrt ((mse pairs : ℚ) : ℝ) := by
  have hn : 0 < pairs.length := List.length_pos.2 h
  have hnq : (0 : ℚ) < (pairs.length : ℚ) := by exact_mod_cast hn
  have habs : (0 : ℚ) ≤ ((predErrors pairs).map (fun e => |e|)).sum :=
    List.sum_nonneg (by
      intro q hq
      rcases List.mem_map.1 hq with ⟨e, _, he⟩
      rw [← he]
      exact abs_nonneg e)
  have hsq : (0 : ℚ) ≤ ((predErrors pairs).map (fun e => e ^ 2)).sum :=
    List.sum_nonneg (by
      intro q hq
      rcases List.mem_map.1 hq with ⟨e, _, he⟩
      rw [← he]
      exact sq_nonneg e)
  have hmae : 0 ≤ mae pairs := by
    unfold mae
    positivity
  have hmse : 0 ≤ mse pairs := by
    unfold mse
    positivity
  have hlen : ((predErrors pairs).length : ℚ) = (pairs.length : ℚ) := by
    rw [predErrors, List.length_map]
  have key : ((predErrors pairs).map (fun e => |e|)).sum ^ 2
      ≤ (pairs.length : ℚ) * ((predErrors pairs).map (fun e => e ^ 2)).sum := by
    have := sq_sum_abs_le (predErrors pairs)
    rw [hlen] at this
    exact this
  have hmae_sq : mae pairs ^ 2 ≤ mse pairs := by
    unfold mae mse
    rw [div_pow, div_le_div_iff (by positivity) hnq]
    nlinarith [key]
  refine ⟨hmae, hmse, Real.sqrt_nonneg _, ?_⟩
  rw [Real.le_sqrt (by exact_mod_cast hmae) (by exact_mod_cast hmse)]
  exact_mod_cast hmae_sq

/-- Witness for C7 at a concrete two-element test set. -/
theorem rmse_ge_mae_witness :
    0 ≤ mae [((4 : ℚ), (5 : ℚ)), (3, 3)] ∧ 0 ≤ mse [((4 : ℚ), (5 : ℚ)), (3, 3)] ∧
    (0 : ℝ) ≤ Real.sqrt ((mse [((4 : ℚ), (5 : ℚ)), (3, 3)] : ℚ) : ℝ) ∧
    ((mae [((4 : ℚ), (5 : ℚ)), (3, 3)] : ℚ) : ℝ)
      ≤ Real.sqrt ((mse [((4 : ℚ), (5 : ℚ)), (3, 3)] : ℚ) : ℝ) :=
  rmse_ge_mae [((4 : ℚ), (5 : ℚ)), (3, 3)] (by decide)

/- ===================== C9: dashboard grid dedupe ===================== -/

/-- Helper: enumeration from a successor offset is the shifted
enumeration from the base offset. -/
theorem enumFrom_succ_eq_map {α : Type} (n : Nat) (l : List α) :
    List.enumFrom (n + 1) l = (List.enumFrom n l).map (fun p => (p.1 + 1, p.2)) := by
  induction l generalizing n with
  | nil => rfl
  | cons a t ih =>
    rw [List.enumFrom_cons, List.enumFrom_cons, List.map_cons, ih (n + 1)]

/-- Helper: enumeration from 1 is the shifted plain enumeration. -/
theorem enumFrom_one_eq {α : Type} (l : List α) :
    List.enumFrom 1 l = l.enum.map (fun p => (p.1 + 1, p.2)) := by
  rw [show (1 : Nat) = 0 + 1 from rfl, enumFrom_succ_eq_map]
  rfl

/-- Helper: the `findIndex`-based filter keeps the head and then keeps
the first-occurrence survivors of the tail whose id differs from the
head's. -/
theorem dedupeByMovieId_cons (m : Movie) (rest : List Movie) :
    dedupeByMovieId (m :: rest)
      = m :: (dedupeByMovieId rest).filter (fun a => !(a.movie_id == m.movie_id)) := by
  unfold dedupeByMovieId
  rw [List.enum_cons, List.filter_cons]
  simp only [List.findIdx_cons, beq_self_eq_true, cond_true, if_pos trivial, List.map_cons]
  rw [enumFrom_one_eq, List.filter_map, List.map_map]
  have hcong : ∀ p ∈ rest.enum,
      ((fun p => ((bif m.movie_id == p.2.movie_id then 0
          else List.findIdx (fun b => b.movie_id == p.2.movie_id) rest + 1) == p.1)) ∘
        (fun p => (p.1 + 1, p.2))) p
      = ((fun p => !(p.2.movie_id == m.movie_id) &&
          (List.findIdx (fun b => b.movie_id == p.2.movie_id) rest == p.1)) p) := by
    intro p _
    cases hb : (m.movie_id == p.2.movie_id) with
    | true =>
      have hb2 : (p.2.movie_id == m.movie_id) = true := by
        rw [beq_iff_eq] at hb ⊢
        exact hb.symm
      simp [Function.comp, hb, hb2]
    | false =>
      have hb2 : (p.2.movie_id == m.movie_id) = false := by
        rw [beq_eq_false_iff_ne] at hb ⊢
        exact fun h => hb h.symm
      simp [Function.comp, hb, hb2]
  rw [List.filter_congr hcong]
  conv_rhs => rw [List.filter_map, List.filter_filter]
  congr 1

/-- Helper: the grid filter computes exactly the first-occurrence
sublist. -/
theorem dedupeByMovieId_eq_keepFirst (l : List Movie) :
    dedupeByMovieId l = keepFirstById l := by
  induction l with
  | nil => rfl
  | cons m rest ih =>
    rw [dedupeByMovieId_cons, ih, keepFirstById]

/-- Helper: first-occurrence dedup is a sublist of its input (relative
order is preserved). -/
theorem keepFirst_sublist (l : List Movie) : (keepFirstById l).Sublist l := by
  induction l with
  | nil => exact List.Sublist.refl []
  | cons m rest ih =>
    rw [keepFirstById]
    exact (List.cons_sublist_cons.2 ((List.filter_sublist _).trans ih))

/-- Helper: first-occurrence dedup never repeats a movie id. -/
theorem keepFirst_ids_nodup (l : List Movie) :
    ((keepFirstById l).map (·.movie_id)).Nodup := by
  induction l with
  | nil => exact List.nodup_nil
  | cons m rest ih =>
    rw [keepFirstById, List.map_cons]
    refine List.nodup_cons.2 ⟨?_, ?_⟩
    · intro hmem
      rcases List.mem_map.1 hmem with ⟨a, ha, hid⟩
      have := (List.mem_filter.1 ha).2
      rw [hid] at this
      simp at this
    · exact ((List.filter_sublist _).map _).nodup ih

/-- Helper: every movie id of the input survives first-occurrence
dedup. -/
theorem keepFirst_covers (l : List Movie) :
    ∀ a ∈ l, a.movie_id ∈ (keepFirstById l).map (·.movie_id) := by
  induction l with
  | nil => intro a ha; exact absurd ha (List.not_mem_nil a)
  | cons m rest ih =>
    intro a ha
    rw [keepFirstById, List.map_cons]
    by_cases hid : a.movie_id = m.movie_id
    · rw [hid]; exact List.mem_cons_self _ _
    · rcases List.mem_cons.1 ha with h | h
      · rw [h] at hid; exact absurd rfl hid
      · rcases List.mem_map.1 (ih a h) with ⟨b, hb, hbid⟩
        refine List.mem_cons.2 (Or.inr (List.mem_map.2 ⟨b, ?_, hbid⟩))
        refine List.mem_filter.2 ⟨hb, ?_⟩
        simp [hbid, hid]

/-- C9: both dashboard grids render each movie id at most once — the
inline `findIndex` filter keeps exactly the first occurrence of each
`movie_id` (it equals the first-occurrence dedup, is duplicate-free on
ids, preserves relative order as a sublist, and keeps some occurrence of
every input id), even when the backend response contains duplicates. -/
theorem dashboard_grid_dedupe (l : List Movie) :
    dedupeByMovieId l = keepFirstById l ∧
    ((dedupeByMovieId l).map (·.movie_id)).Nodup ∧
    (dedupeByMovieId l).Sublist l ∧
    ∀ a ∈ l, a.movie_id ∈ (dedupeByMovieId l).map (·.movie_id) := by
  have he := dedupeByMovieId_eq_keepFirst l
  refine ⟨he, ?_, ?_, ?_⟩
  · rw [he]; exact keepFirst_ids_nodup l
  · rw [he]; exact keepFirst_sublist l
  · rw [he]; exact keepFirst_covers l

/-- Concrete movie list with a duplicated id, for the C9 witness. -/
def demoMovies : List Movie :=
  [⟨1, "a"⟩, ⟨2, "b"⟩, ⟨1, "c"⟩]

/-- Witness for C9 at a concrete list with a duplicate id. -/
theorem dashboard_grid_dedupe_witness :
    dedupeByMovieId demoMovies = keepFirstById demoMovies ∧
    (⟨1, "c"⟩ : Movie).movie_id ∈ (dedupeByMovieId demoMovies).map (·.movie_id) :=
  ⟨(dashboard_grid_dedupe demoMovies).1,
   (dashboard_grid_dedupe demoMovies).2.2.2 ⟨1, "c"⟩ (by decide)⟩

/-- Witness for C8 at a concrete seed, fraction and snapshot. -/
theorem splitRatings_partition_witness :
    ((splitRatings 0 (1/2) demoRatings).1 ++ (splitRatings 0 (1/2) demoRatings).2).Perm
      demoRatings ∧
    ((⟨2, 1, 5⟩ : Rating) ∈ demoRatings ↔
      (⟨2, 1, 5⟩ : Rating) ∈ (splitRatings 0 (1/2) demoRatings).1 ∨
      (⟨2, 1, 5⟩ : Rating) ∈ (splitRatings 0 (1/2) demoRatings).2) :=
  ⟨(splitRatings_partition 0 (1/2) demoRatings).2.1,
   (splitRatings_partition 0 (1/2) demoRatings).2.2 ⟨2, 1, 5⟩⟩

/- ===================== C5: zero overlap forces fallback ===================== -/

/-- Helper: cosine similarity of two distinct users with no co-rated
item is zero. -/
theorem userSim_zero_of_no_overlap (m : Model) (a b : Nat) (hab : a ≠ b)
    (hcom : m.commonItems a b = []) : m.userSim a b = 0 := by
  simp only [Model.userSim, hcom]
  rw [if_neg hab]
  simp

/-- Helper: Pearson similarity of two distinct items with no co-rater is
zero (either through the co-rater threshold or through zero variance). -/
theorem itemSim_zero_of_no_coRaters (m : Model) (c i : Nat) (hci : c ≠ i)
    (hco : m.coRaters c i = []) : m.itemSim c i = 0 := by
  simp only [Model.itemSim, hco]
  rw [if_neg hci]
  by_cases h : ([] : List Nat).length < m.cfg.minCoraters
  · rw [if_pos h]
  · rw [if_neg h]
    simp

/-- Helper: a top-K neighbour of `u` for candidate `c` is a user of the
model distinct from `u`. -/
theorem topNeighbors_mem (m : Model) (u c v : Nat) (hv : v ∈ m.topNeighbors u c) :
    v ∈ m.users ∧ v ≠ u := by
  have h1 : v ∈ ((m.ratersOf c).filter (fun v => !(v == u))).mergeSort
      (simDescLe (m.userSim u)) := (List.take_sublist _ _).mem hv
  have h2 := List.mem_filter.1 (List.mem_mergeSort.1 h1)
  refine ⟨(List.mem_filter.1 h2.1).1, ?_⟩
  have h3 := h2.2
  rw [Bool.not_eq_true'] at h3
  exact fun he => by rw [he] at h3; simp at h3

/-- Helper: a top-K similar rated item of `u` for candidate `c` was rated
by `u` and differs from `c`. -/
theorem topRatedSimilar_mem (m : Model) (u c i : Nat) (hi : i ∈ m.topRatedSimilar u c) :
    i ∈ m.items ∧ (m.cell u i).isSome = true ∧ i ≠ c := by
  have h1 : i ∈ ((m.ratedBy u).filter (fun i => !(i == c))).mergeSort
      (simDescLe (m.itemSim c)) := (List.take_sublist _ _).mem hi
  have h2 := List.mem_filter.1 (List.mem_mergeSort.1 h1)
  have h3 := List.mem_filter.1 h2.1
  refine ⟨h3.1, h3.2, ?_⟩
  have h4 := h2.2
  rw [Bool.not_eq_true'] at h4
  exact fun he => by rw [he] at h4; simp at h4

/-- Helper: the user-based scorer reports no signal when every top-K
neighbour has similarity zero. -/
theorem userScore_none_of_allSimZero (m : Model) (u c : Nat)
    (h : ∀ v ∈ m.topNeighbors u c, m.userSim u v = 0) :
    m.userScore u c = none := by
  have hden : ((m.topNeighbors u c).map (fun v => |m.userSim u v|)).sum = (0 : ℝ) := by
    apply List.sum_eq_zero
    intro x hx
    rcases List.mem_map.1 hx with ⟨v, hv, hxv⟩
    rw [← hxv, h v hv, abs_zero]
  simp only [Model.userScore]
  rw [if_pos hden]

/-- Helper: the item-based scorer reports no signal when every top-K
similar rated item has similarity zero to the candidate. -/
theorem itemScore_none_of_allSimZero (m : Model) (u c : Nat)
    (h : ∀ i ∈ m.topRatedSimilar u c, m.itemSim c i = 0) :
    m.itemScore u c = none := by
  have hden : ((m.topRatedSimilar u c).map (fun i => |m.itemSim c i|)).sum = (0 : ℝ) := by
    apply List.sum_eq_zero
    intro x hx
    rcases List.mem_map.1 hx with ⟨i, hi, hxi⟩
    rw [← hxi, h i hi, abs_zero]
  simp only [Model.itemScore]
  rw [if_pos hden]

/-- Helper: when both scorers report no signal the blended prediction is
the popularity fallback, for every recommendation type. -/
theorem blendOne_pop_of_noSignal (m : Model) (u c : Nat) (t : RecType)
    (hus : m.userScore u c = none) (his : m.itemScore u c = none) :
    m.blendOne u t c = m.popPrediction u c := by
  cases t <;> simp [Model.blendOne, hus, his]

/-- Helper: membership in the unrated candidate list. -/
theorem unratedItems_cell (m : Model) (u c : Nat) (hc : c ∈ m.unratedItems u) :
    c ∈ m.items ∧ m.cell u c = none := by
  have h1 := List.mem_filter.1 hc
  refine ⟨h1.1, ?_⟩
  have h2 := h1.2
  rw [Bool.not_eq_true'] at h2
  cases ho : m.cell u c with
  | none => rfl
  | some x => rw [ho] at h2; simp at h2

/-- C5: a pair of distinct users with zero co-rated items has user-user
similarity exactly 0; consequently a known user whose co-rated overlap
with every other user is empty has similarity 0 to all other users, and
`recommend` for that user returns the popularity-ranked fallback list
over their unrated items, for every size and recommendation type. -/
theorem zero_overlap_forces_fallback :
    (∀ (m : Model) (a b : Nat), a ≠ b → m.commonItems a b = [] → m.userSim a b = 0) ∧
    (∀ (m : Model) (u : Nat), u ∈ m.users →
      (∀ v ∈ m.users, v ≠ u → m.commonItems u v = []) →
      (∀ v ∈ m.users, v ≠ u → m.userSim u v = 0) ∧
      (∀ (n : Nat) (t : RecType),
        m.recommend u n t = m.popRank u (m.unratedItems u) n)) := by
  refine ⟨userSim_zero_of_no_overlap, ?_⟩
  intro m u hu hov
  have hsim : ∀ v ∈ m.users, v ≠ u → m.userSim u v = 0 := fun v hv hvu =>
    userSim_zero_of_no_overlap m u v (Ne.symm hvu) (hov v hv hvu)
  refine ⟨hsim, ?_⟩
  intro n t
  unfold Model.recommend
  rw [if_pos hu]
  unfold Model.popRank
  have hmap : (m.unratedItems u).map (m.blendOne u t)
      = (m.unratedItems u).map (m.popPrediction u) := by
    apply List.map_congr_left
    intro c hc
    rcases unratedItems_cell m u c hc with ⟨_, hcnone⟩
    have hus : m.userScore u c = none := by
      apply userScore_none_of_allSimZero
      intro v hv
      rcases topNeighbors_mem m u c v hv with ⟨hvusers, hvu⟩
      exact hsim v hvusers hvu
    have his : m.itemScore u c = none := by
      apply itemScore_none_of_allSimZero
      intro i hi
      rcases topRatedSimilar_mem m u c i hi with ⟨hiitems, hisome, hic⟩
      apply itemSim_zero_of_no_coRaters m c i (Ne.symm hic)
      rw [List.eq_nil_iff_forall_not_mem]
      intro v hv
      have h1 := List.mem_filter.1 hv
      have h12 := h1.2
      rw [Bool.and_eq_true] at h12
      rcases h12 with ⟨hvc, hvi⟩
      by_cases hvu : v = u
      · rw [hvu, hcnone] at hvc
        simp at hvc
      · have hmem : i ∈ m.commonItems u v := by
          refine List.mem_filter.2 ⟨hiitems, ?_⟩
          rw [Bool.and_eq_true]
          exact ⟨hisome, hvi⟩
        rw [hov v h1.1 hvu] at hmem
        exact List.not_mem_nil i hmem
    exact blendOne_pop_of_noSignal m u c t hus his
  rw [hmap]

/-- Concrete snapshot in which user 1 shares no co-rated item with any
other user, for the C5 witness. -/
def demoColdRatings : List Rating :=
  [⟨1, 1, 5⟩, ⟨2, 2, 4⟩, ⟨2, 3, 3⟩]

/-- Witness for C5 at the concrete zero-overlap snapshot. -/
theorem zero_overlap_forces_fallback_witness :
    (mkModel demoColdRatings demoCfg).userSim 1 2 = 0 ∧
    (mkModel demoColdRatings demoCfg).recommend 1 3 .hybrid
      = (mkModel demoColdRatings demoCfg).popRank 1
          ((mkModel demoColdRatings demoCfg).unratedItems 1) 3 :=
  ⟨zero_overlap_forces_fallback.1 (mkModel demoColdRatings demoCfg) 1 2
      (by decide) (by decide),
   ((zero_overlap_forces_fallback.2 (mkModel demoColdRatings demoCfg) 1
      (by decide) (by decide)).2 3 .hybrid)⟩
